import Mathlib

/-!
Shallow embedding of the MCP Jira server (src/main.py) message handlers.

The Python program is a thin HTTP front-end dispatching JSON command
messages to handlers that call an external Jira client.  We embed:

* Python values appearing in message payloads as `Val`;
* JSON-shaped response data as `J`;
* the external Jira client as an oracle record `JiraClient` of functions
  returning `Except PyErr _` (Python exceptions become `Except.error`);
* outbound calls that matter to the spec (issue creation, transition
  application, field updates, searches) as an explicit `Effect` trace;
* each handler `_create_issue`, `_get_issue`, `_update_issue`,
  `_search_issues`, `_get_epic_with_subtasks`, `_get_my_issues`,
  `_get_transitions` and the dispatcher `handle_mcp_message` as pure
  functions `JiraClient → Msg → List Effect × Except PyErr Envelope`
  (the dispatcher catches all exceptions, so it returns a plain
  `Envelope`).

Python's floor division `//` (which raises `ZeroDivisionError` on a zero
divisor) is embedded as `pyFloorDiv` over `Int` with `Int.fdiv`.
-/

namespace MCPJira

/-- Values of a decoded JSON message payload (`Dict[str, Any]` entries). -/
inductive Val where
  | vStr (s : String)
  | vInt (n : Int)
  | vBool (b : Bool)
deriving DecidableEq, Repr

/-- JSON-shaped data returned in response envelopes. -/
inductive J where
  | s (v : String)
  | i (v : Int)
  | b (v : Bool)
  | null
  | arr (l : List J)
  | obj (l : List (String × J))

/-- Python truthiness of a payload value (`if x:`). -/
def Val.truthy : Val → Bool
  | .vStr s => s ≠ ""
  | .vInt n => n ≠ 0
  | .vBool b => b

/-- Payload dictionary, `data` field of a message. -/
abbrev Data := List (String × Val)

/-- Python `d.get(k)`: first binding of the key, if present. -/
def lookupVal (d : Data) (k : String) : Option Val :=
  d.lookup k

/-- Python pattern `x = d.get(k)` followed by `if not x: ...`:
returns the value only when present and truthy. -/
def getTruthy (d : Data) (k : String) : Option Val :=
  match lookupVal d k with
  | some v => if v.truthy then some v else none
  | none => none

/-- Python `str(v)` for a payload value (used by f-string interpolation). -/
def pyStr : Val → String
  | .vStr s => s
  | .vInt n => toString n
  | .vBool b => if b then "True" else "False"

/-- Embedding of a payload value as response JSON. -/
def valJ : Val → J
  | .vStr s => .s s
  | .vInt n => .i n
  | .vBool b => .b b

/-- Optional string to JSON: `str(x) if x else None`. -/
def optS : Option String → J
  | some s => .s s
  | none => .null

/-- Python exceptions relevant to the program. -/
inductive PyErr where
  | jiraError (status_code : Int) (text : String)
  | valueError (msg : String)
  | zeroDivision
  | attributeError (msg : String)
  | other (msg : String)
deriving DecidableEq, Repr

/-- Python `str(e)` on an exception, as used by the dispatcher's catch-all. -/
def pyErrStr : PyErr → String
  | .jiraError code text => "JiraError HTTP " ++ toString code ++ ": " ++ text
  | .valueError m => m
  | .zeroDivision => "integer division or modulo by zero"
  | .attributeError m => m
  | .other m => m

/-- Python `int(v)`: identity on ints, 0/1 on bools, parse for strings
(raising `ValueError` on a non-numeric string). -/
def pyInt : Val → Except PyErr Int
  | .vInt n => .ok n
  | .vBool b => .ok (if b then 1 else 0)
  | .vStr s =>
    match s.trim.toInt? with
    | some n => .ok n
    | none => .error (.valueError ("invalid literal for int with base 10: " ++ s))

/-- ASCII lowering of a string, Python `s.lower()` (written over the
character list so that it reduces in the kernel). -/
def strLower (s : String) : String := ⟨s.data.map Char.toLower⟩

/-- ASCII raising of a string, Python `s.upper()`. -/
def strUpper (s : String) : String := ⟨s.data.map Char.toUpper⟩

/-- Python `v.lower()`: only strings have the method. -/
def pyLower : Val → Except PyErr String
  | .vStr s => .ok (strLower s)
  | _ => .error (.attributeError "object has no attribute lower")

/-- Python `v.upper()`: only strings have the method. -/
def pyUpper : Val → Except PyErr String
  | .vStr s => .ok (strUpper s)
  | _ => .error (.attributeError "object has no attribute upper")

/-- Python floor division `a // b`, raising `ZeroDivisionError` when `b = 0`. -/
def pyFloorDiv (a b : Int) : Except PyErr Int :=
  if b = 0 then .error .zeroDivision else .ok (Int.fdiv a b)

/-- Fields of an external Jira issue, as accessed by the handlers. -/
structure IssueFields where
  summary : String
  description : Option String
  statusName : String
  created : String
  updated : String
  assignee : Option String
  reporter : Option String
  priorityName : Option String
  projectKey : String
  projectName : String
  issuetypeName : String
  issuetypeSubtask : Bool
  duedate : Option String
deriving DecidableEq, Repr

/-- An external Jira issue object. -/
structure Issue where
  key : String
  id : String
  self : String
  fields : IssueFields
deriving DecidableEq, Repr

/-- A workflow transition returned by the external client:
`id`, `name`, and `to.name` (the destination status name). -/
structure Transition where
  id : String
  name : String
  toName : String
deriving DecidableEq, Repr

/-- Result of an external search call: the page of issues and the total count. -/
structure SearchRes where
  issues : List Issue
  total : Int
deriving DecidableEq, Repr

/-- Outbound calls of interest: the three mutating calls and each search,
recorded in order of issue. -/
inductive Effect where
  | createIssue (fields : List (String × J))
  | transitionIssue (issueKey : String) (transitionId : String)
  | updateFields (issueKey : String) (fields : List (String × Val))
  | searchCalled (jql : String) (startAt : Int) (maxResults : Int)

/-- True exactly on the mutating outbound calls. -/
def Effect.isMutation : Effect → Bool
  | .createIssue _ => true
  | .transitionIssue _ _ => true
  | .updateFields _ _ => true
  | .searchCalled _ _ _ => false

/-- Oracle model of the external Jira client together with the configured
maximum page size (`config.max_results`).  Each function is the external
system's response to the corresponding call; `Except.error` models the
call raising. -/
structure JiraClient where
  max_results : Int
  create_issue : List (String × J) → Except PyErr Issue
  issue : String → Except PyErr Issue
  transitions : Issue → Except PyErr (List Transition)
  transition_issue : Issue → String → Except PyErr Unit
  update : Issue → List (String × Val) → Except PyErr Unit
  search_issues : String → Int → Int → Except PyErr SearchRes

/-- Response envelope `{status, data?, message?}`. -/
structure Envelope where
  status : String
  data : Option J := none
  message : Option String := none

/-- Inbound MCP message: `command` and `data` fields of the decoded JSON. -/
structure Msg where
  command : Option Val := none
  data : Option Data := none

/-- Error envelope `{'status': 'error', 'message': m}`. -/
def errEnv (m : String) : Envelope :=
  { status := "error", data := none, message := some m }

/-- Success envelope carrying data. -/
def successDataEnv (d : J) : Envelope :=
  { status := "success", data := some d, message := none }

/-- Success envelope carrying only a confirmation message. -/
def okMsgEnv (m : String) : Envelope :=
  { status := "success", data := none, message := some m }

/-- Result of a handler: the effect trace and either an envelope or an
uncaught exception. -/
abbrev HRes := List Effect × Except PyErr Envelope

/-- Exception clauses shared verbatim by the three search handlers:
`JIRAError` and `ValueError` get specific messages, anything else the
generic one. -/
def searchExcept : PyErr → Envelope
  | .jiraError code text => errEnv ("JIRA API error: " ++ toString code ++ " - " ++ text)
  | .valueError m => errEnv ("Invalid input: " ++ m)
  | _ => errEnv "An unexpected error occurred"

/-- Pagination block shared by the three search handlers. -/
def paginationJ (total page page_size total_pages : Int) : J :=
  .obj [("total", .i total), ("page", .i page),
        ("page_size", .i page_size), ("total_pages", .i total_pages)]

/-- Result row shaping of `_search_issues`. -/
def shapeSearchIssue (issue : Issue) : J :=
  .obj [("key", .s issue.key),
        ("summary", .s issue.fields.summary),
        ("description", optS issue.fields.description),
        ("status", .s issue.fields.statusName),
        ("created", .s issue.fields.created),
        ("updated", .s issue.fields.updated),
        ("assignee", optS issue.fields.assignee)]

/-- Epic shaping of `_get_epic_with_subtasks`. -/
def shapeEpic (epic : Issue) : J :=
  .obj [("key", .s epic.key),
        ("summary", .s epic.fields.summary),
        ("description", optS epic.fields.description),
        ("status", .s epic.fields.statusName),
        ("created", .s epic.fields.created),
        ("updated", .s epic.fields.updated),
        ("assignee", optS epic.fields.assignee),
        ("reporter", optS epic.fields.reporter),
        ("priority", optS epic.fields.priorityName)]

/-- Subtask row shaping of `_get_epic_with_subtasks`. -/
def shapeSubtask (task : Issue) : J :=
  .obj [("key", .s task.key),
        ("summary", .s task.fields.summary),
        ("description", optS task.fields.description),
        ("status", .s task.fields.statusName),
        ("issuetype", .s task.fields.issuetypeName),
        ("created", .s task.fields.created),
        ("updated", .s task.fields.updated),
        ("assignee", optS task.fields.assignee),
        ("priority", optS task.fields.priorityName)]

/-- Result row shaping of `_get_my_issues`. -/
def shapeMyIssue (issue : Issue) : J :=
  .obj [("key", .s issue.key),
        ("summary", .s issue.fields.summary),
        ("description", optS issue.fields.description),
        ("status", .s issue.fields.statusName),
        ("created", .s issue.fields.created),
        ("updated", .s issue.fields.updated),
        ("priority", optS issue.fields.priorityName),
        ("project", .obj [("key", .s issue.fields.projectKey),
                          ("name", .s issue.fields.projectName)]),
        ("issuetype", .obj [("name", .s issue.fields.issuetypeName),
                            ("subtask", .b issue.fields.issuetypeSubtask)]),
        ("duedate", optS issue.fields.duedate)]

/-- Handler `_create_issue` (src/main.py lines 91-116): validates the three
required keys, builds the fields dictionary with `issuetype` defaulting to
Task, attaches a parent only when `issue_type == 'Subtask'` and
`parent_issue` is present and truthy, then calls the external create. -/
def _create_issue (client : JiraClient) (message : Msg) : HRes :=
  let data := (message.data).getD []
  match lookupVal data "project", lookupVal data "summary", lookupVal data "description" with
  | some proj, some summ, some desc =>
    let issue_dict : List (String × J) :=
      [("project", .obj [("key", valJ proj)]),
       ("summary", valJ summ),
       ("description", valJ desc),
       ("issuetype", .obj [("name", valJ ((lookupVal data "issue_type").getD (.vStr "Task")))])]
      ++ (if lookupVal data "issue_type" = some (.vStr "Subtask")
             ∧ ((lookupVal data "parent_issue").map Val.truthy).getD false = true then
            [("parent", .obj [("key", valJ ((lookupVal data "parent_issue").getD (.vStr "")))])]
          else [])
    match client.create_issue issue_dict with
    | .error e => ([.createIssue issue_dict], .error e)
    | .ok issue =>
      ([.createIssue issue_dict],
       .ok (successDataEnv (.obj [("issue_key", .s issue.key),
                                  ("issue_id", .s issue.id),
                                  ("self", .s issue.self)])))
  | _, _, _ => ([], .ok (errEnv "Missing required fields"))

/-- Handler `_get_issue` (src/main.py lines 118-133). -/
def _get_issue (client : JiraClient) (message : Msg) : HRes :=
  match getTruthy ((message.data).getD []) "issue_key" with
  | none => ([], .ok (errEnv "Missing issue key"))
  | some ikV =>
    match client.issue (pyStr ikV) with
    | .error e => ([], .error e)
    | .ok issue =>
      ([], .ok (successDataEnv (.obj [("issue_key", .s issue.key),
                                      ("summary", .s issue.fields.summary),
                                      ("description", optS issue.fields.description),
                                      ("status", .s issue.fields.statusName)])))

/-- Transition-matching loop of `_update_issue` (src/main.py lines 158-162):
walks the transitions, collecting each destination name into
`available_transitions` and breaking at the first whose destination name
lower-cases to the target. -/
def findTransition (target : String) : List Transition → List String × Option String
  | [] => ([], none)
  | t :: rest =>
    if strLower t.toName = target then ([t.toName], some t.id)
    else
      let r := findTransition target rest
      (t.toName :: r.1, r.2)

/-- Tail of `_update_issue` after the status handling (src/main.py
lines 173-177): apply the collected field updates, if any, then return the
confirmation envelope. -/
def finishUpdate (client : JiraClient) (issue : Issue) (issue_key : String)
    (update_fields : List (String × Val)) (effs : List Effect) : HRes :=
  if update_fields.isEmpty then
    (effs, .ok (okMsgEnv ("Updated issue " ++ issue_key)))
  else
    match client.update issue update_fields with
    | .error e => (effs ++ [.updateFields issue.key update_fields], .error e)
    | .ok _ => (effs ++ [.updateFields issue.key update_fields],
                .ok (okMsgEnv ("Updated issue " ++ issue_key)))

/-- Handler `_update_issue` (src/main.py lines 135-177). -/
def _update_issue (client : JiraClient) (message : Msg) : HRes :=
  let data := (message.data).getD []
  match getTruthy data "issue_key" with
  | none => ([], .ok (errEnv "Missing issue key"))
  | some ikV =>
    let issue_key := pyStr ikV
    let update_fields : List (String × Val) :=
      (match lookupVal data "summary" with
       | some v => [("summary", v)]
       | none => []) ++
      (match lookupVal data "description" with
       | some v => [("description", v)]
       | none => [])
    match client.issue issue_key with
    | .error e => ([], .error e)
    | .ok issue =>
      match lookupVal data "status" with
      | some statusV =>
        match client.transitions issue with
        | .error e => ([], .error e)
        | .ok transitions =>
          match pyLower statusV with
          | .error e => ([], .error e)
          | .ok target_status =>
            let found := findTransition target_status transitions
            match found.2 with
            | some tid =>
              match client.transition_issue issue tid with
              | .error e => ([.transitionIssue issue.key tid], .error e)
              | .ok _ =>
                finishUpdate client issue issue_key update_fields
                  [.transitionIssue issue.key tid]
            | none =>
              ([], .ok (errEnv ("No transition found to status: " ++ pyStr statusV
                ++ ". Available status transitions are: "
                ++ String.intercalate ", " found.1)))
      | none => finishUpdate client issue issue_key update_fields []

/-- JQL built by `_search_issues` (src/main.py lines 203-206). -/
def search_jql (title_only : Bool) (search_text : String) : String :=
  if title_only then
    "summary ~ \"" ++ search_text ++ "\" AND issuetype != Epic"
  else
    "(summary ~ \"" ++ search_text ++ "\" OR description ~ \"" ++ search_text
      ++ "\") AND issuetype != Epic"

/-- Handler `_search_issues` (src/main.py lines 179-252).  Page and
page-size parsing happens before the try block, so a parse failure
propagates to the dispatcher; everything from the JQL build on is inside
the try and converted by `searchExcept`. -/
def _search_issues (client : JiraClient) (message : Msg) : HRes :=
  let data := (message.data).getD []
  let title_only := ((lookupVal data "title_only").getD (.vBool false)).truthy
  match pyInt ((lookupVal data "page").getD (.vInt 1)) with
  | .error e => ([], .error e)
  | .ok pageRaw =>
    match pyInt ((lookupVal data "page_size").getD (.vInt 20)) with
    | .error e => ([], .error e)
    | .ok psRaw =>
      let page := max 1 pageRaw
      let page_size := min client.max_results psRaw
      match getTruthy data "search_text" with
      | none => ([], .ok (errEnv "Missing search text"))
      | some stV =>
        let jql := search_jql title_only (pyStr stV)
        let start_at := (page - 1) * page_size
        match client.search_issues jql start_at page_size with
        | .error e => ([.searchCalled jql start_at page_size], .ok (searchExcept e))
        | .ok sr =>
          match pyFloorDiv (sr.total + page_size - 1) page_size with
          | .error e => ([.searchCalled jql start_at page_size], .ok (searchExcept e))
          | .ok total_pages =>
            ([.searchCalled jql start_at page_size],
             .ok (successDataEnv (.obj
               [("issues", .arr (sr.issues.map shapeSearchIssue)),
                ("pagination", paginationJ sr.total page page_size total_pages)])))

/-- Epic lookup JQL of `_get_epic_with_subtasks` (src/main.py line 276). -/
def epic_jql (epic_name : String) : String :=
  "issuetype = Epic AND (summary ~ \"" ++ epic_name ++ "\" OR summary = \""
    ++ epic_name ++ "\")"

/-- Subtask JQL of `_get_epic_with_subtasks` (src/main.py line 292). -/
def subtasks_jql (epicKey : String) : String :=
  "\"Epic Link\" = " ++ epicKey ++ " ORDER BY created DESC"

/-- Epic choice of `_get_epic_with_subtasks` (src/main.py lines 283-286):
the first candidate whose summary equals the requested name
case-insensitively, else the first candidate. -/
def chooseEpic (epic_name : String) (e0 : Issue) (rest : List Issue) : Issue :=
  ((e0 :: rest).find? (fun e => strLower e.fields.summary = strLower epic_name)).getD e0

/-- Handler `_get_epic_with_subtasks` (src/main.py lines 254-342). -/
def _get_epic_with_subtasks (client : JiraClient) (message : Msg) : HRes :=
  let data := (message.data).getD []
  match pyInt ((lookupVal data "page").getD (.vInt 1)) with
  | .error e => ([], .error e)
  | .ok pageRaw =>
    match pyInt ((lookupVal data "page_size").getD (.vInt 20)) with
    | .error e => ([], .error e)
    | .ok psRaw =>
      let page := max 1 pageRaw
      let page_size := min client.max_results psRaw
      match getTruthy data "epic_name" with
      | none => ([], .ok (errEnv "Missing epic name"))
      | some enV =>
        let epic_name := pyStr enV
        let ejql := epic_jql epic_name
        match client.search_issues ejql 0 5 with
        | .error e => ([.searchCalled ejql 0 5], .ok (searchExcept e))
        | .ok esr =>
          match esr.issues with
          | [] => ([.searchCalled ejql 0 5],
                   .ok (errEnv ("No epic found with name containing \"" ++ epic_name ++ "\"")))
          | e0 :: rest =>
            let epic := chooseEpic epic_name e0 rest
            let start_at := (page - 1) * page_size
            let sjql := subtasks_jql epic.key
            match client.search_issues sjql start_at page_size with
            | .error e => ([.searchCalled ejql 0 5, .searchCalled sjql start_at page_size],
                           .ok (searchExcept e))
            | .ok ssr =>
              match pyFloorDiv (ssr.total + page_size - 1) page_size with
              | .error e => ([.searchCalled ejql 0 5, .searchCalled sjql start_at page_size],
                             .ok (searchExcept e))
              | .ok total_pages =>
                ([.searchCalled ejql 0 5, .searchCalled sjql start_at page_size],
                 .ok (successDataEnv (.obj
                   [("epic", shapeEpic epic),
                    ("subtasks", .obj
                      [("issues", .arr (ssr.issues.map shapeSubtask)),
                       ("pagination", paginationJ ssr.total page page_size total_pages)])])))

/-- JQL built by `_get_my_issues` (src/main.py lines 368-380): conjunctive
filters joined with AND, then an ORDER BY clause only when the requested
sort field is one of the five allowed names. -/
def build_my_issues_jql (status project : Option Val) (sort_by : Val)
    (sort_order : String) : String :=
  let jql_parts : List String :=
    ["assignee = currentUser()"]
    ++ (match status with
        | some v => if v.truthy then ["status = \"" ++ pyStr v ++ "\""] else []
        | none => [])
    ++ (match project with
        | some v => if v.truthy then ["project = \"" ++ pyStr v ++ "\""] else []
        | none => [])
  let jql := String.intercalate " AND " jql_parts
  if sort_by ∈ [Val.vStr "created", Val.vStr "updated", Val.vStr "priority",
                Val.vStr "status", Val.vStr "duedate"] then
    jql ++ " ORDER BY " ++ pyStr sort_by ++ " " ++ sort_order
  else jql

/-- Body of `_get_my_issues` (src/main.py lines 360-424); runs inside the
handler's try, so any exception here is caught by `searchExcept`. -/
def _get_my_issues_body (client : JiraClient) (data : Data) : HRes :=
  match pyInt ((lookupVal data "page").getD (.vInt 1)) with
  | .error e => ([], .error e)
  | .ok pageRaw =>
    match pyInt ((lookupVal data "page_size").getD (.vInt 20)) with
    | .error e => ([], .error e)
    | .ok psRaw =>
      let page := max 1 pageRaw
      let page_size := min client.max_results psRaw
      let status := lookupVal data "status"
      let project := lookupVal data "project"
      let sort_by := (lookupVal data "sort_by").getD (.vStr "updated")
      match pyUpper ((lookupVal data "sort_order").getD (.vStr "DESC")) with
      | .error e => ([], .error e)
      | .ok sort_order =>
        let jql := build_my_issues_jql status project sort_by sort_order
        let start_at := (page - 1) * page_size
        match client.search_issues jql start_at page_size with
        | .error e => ([.searchCalled jql start_at page_size], .error e)
        | .ok sr =>
          match pyFloorDiv (sr.total + page_size - 1) page_size with
          | .error e => ([.searchCalled jql start_at page_size], .error e)
          | .ok total_pages =>
            ([.searchCalled jql start_at page_size],
             .ok (successDataEnv (.obj
               [("issues", .arr (sr.issues.map shapeMyIssue)),
                ("pagination", paginationJ sr.total page page_size total_pages)])))

/-- Handler `_get_my_issues` (src/main.py lines 344-434): the whole body
sits inside the try, so every exception is converted by `searchExcept`. -/
def _get_my_issues (client : JiraClient) (message : Msg) : HRes :=
  match _get_my_issues_body client ((message.data).getD []) with
  | (effs, .ok env) => (effs, .ok env)
  | (effs, .error e) => (effs, .ok (searchExcept e))

/-- Insertion of a string into a sorted list, for `sorted(...)`. -/
def insertSorted (s : String) : List String → List String
  | [] => [s]
  | x :: xs => if s ≤ x then s :: x :: xs else x :: insertSorted s xs

/-- Sorting of a list of strings, for `sorted(list(set(...)))`. -/
def sortStrings : List String → List String
  | [] => []
  | x :: xs => insertSorted x (sortStrings xs)

/-- Handler `_get_transitions` (src/main.py lines 436-468). -/
def _get_transitions (client : JiraClient) (message : Msg) : HRes :=
  match getTruthy ((message.data).getD []) "issue_key" with
  | none => ([], .ok (errEnv "Missing issue key"))
  | some ikV =>
    match client.issue (pyStr ikV) with
    | .error e => ([], .error e)
    | .ok issue =>
      match client.transitions issue with
      | .error e => ([], .error e)
      | .ok transitions =>
        let current_status := issue.fields.statusName
        let next_possible := sortStrings ((transitions.map (·.toName)).eraseDups)
        ([], .ok (successDataEnv (.obj
          [("issue_key", .s (pyStr ikV)),
           ("current_status", .s current_status),
           ("available_transitions", .obj
             [("current", .s current_status),
              ("possible_next_statuses", .arr (next_possible.map J.s)),
              ("details", .arr (transitions.map (fun t =>
                 .obj [("id", .s t.id),
                       ("name", .s t.name),
                       ("from_status", .s current_status),
                       ("to_status", .s t.toName)])))])])))

/-- Try-block body of `handle_mcp_message` (src/main.py lines 66-85):
command validation and routing to the seven handlers. -/
def dispatch (client : JiraClient) (message : Msg) : HRes :=
  match message.command with
  | none => ([], .ok (errEnv "No command specified"))
  | some c =>
    if ¬ c.truthy then ([], .ok (errEnv "No command specified"))
    else if c = .vStr "create_issue" then _create_issue client message
    else if c = .vStr "get_issue" then _get_issue client message
    else if c = .vStr "update_issue" then _update_issue client message
    else if c = .vStr "search_issues" then _search_issues client message
    else if c = .vStr "get_epic_with_subtasks" then _get_epic_with_subtasks client message
    else if c = .vStr "get_my_issues" then _get_my_issues client message
    else if c = .vStr "get_transitions" then _get_transitions client message
    else ([], .ok (errEnv ("Unknown command: " ++ pyStr c)))

/-- Dispatcher `handle_mcp_message` (src/main.py lines 63-89): routes the
message and converts any uncaught handler exception into an error
envelope, so it always returns an envelope. -/
def handle_mcp_message (client : JiraClient) (message : Msg) : List Effect × Envelope :=
  match dispatch client message with
  | (effs, .ok env) => (effs, env)
  | (effs, .error e) => (effs, errEnv (pyErrStr e))

/-- Ceiling of the rational division `a / b` (for `b ≠ 0`), expressed as a
negated floor division: `⌈a / b⌉ = -⌊-a / b⌋`.  This is the spec's
`ceil(total / page_size)`. -/
def ceilD (a b : Int) : Int := -((-a).fdiv b)

/-- Concrete issue fields used by witnesses. -/
def fields0 : IssueFields :=
  { summary := "Login epic", description := some "Desc", statusName := "Open",
    created := "2024-01-01", updated := "2024-01-02", assignee := none,
    reporter := none, priorityName := none, projectKey := "PR",
    projectName := "Proj", issuetypeName := "Task", issuetypeSubtask := false,
    duedate := none }

/-- Concrete issue used by witnesses. -/
def issue0 : Issue := ⟨"PR-1", "100", "https://x/PR-1", fields0⟩

/-- Concrete external client whose calls all answer with fixed values,
used to instantiate witnesses and counterexamples. -/
def mkClient (mx : Int) (cr : Except PyErr Issue) (iss : Except PyErr Issue)
    (ts : Except PyErr (List Transition)) (sr : Except PyErr SearchRes) : JiraClient :=
  { max_results := mx,
    create_issue := fun _ => cr,
    issue := fun _ => iss,
    transitions := fun _ => ts,
    transition_issue := fun _ _ => .ok (),
    update := fun _ _ => .ok (),
    search_issues := fun _ _ _ => sr }

/-- Key arithmetic fact: for a positive page size the handlers' formula
`(t + b - 1) // b` (Python floor division) computes the ceiling of
`t / b`, for every integer total `t`. -/
theorem fdiv_formula_eq_ceilD (t b : Int) (hb : 0 < b) :
    (t + b - 1).fdiv b = ceilD t b := by
  have hb0 : (0 : Int) ≤ b := le_of_lt hb
  rw [ceilD, Int.fdiv_eq_ediv _ hb0, Int.fdiv_eq_ediv _ hb0]
  have h1 := Int.ediv_add_emod (t + b - 1) b
  have h2 := Int.ediv_add_emod (-t) b
  have e1 : 0 ≤ (t + b - 1) % b := Int.emod_nonneg _ (ne_of_gt hb)
  have e2 : (t + b - 1) % b < b := Int.emod_lt_of_pos _ hb
  have e3 : 0 ≤ (-t) % b := Int.emod_nonneg _ (ne_of_gt hb)
  have e4 : (-t) % b < b := Int.emod_lt_of_pos _ hb
  have hdist : b * ((t + b - 1) / b + (-t) / b)
      = b * ((t + b - 1) / b) + b * ((-t) / b) := by ring
  have hsum : b * ((t + b - 1) / b + (-t) / b)
      = b - 1 - (t + b - 1) % b - (-t) % b := by
    rw [hdist]; linarith
  have hzero : (t + b - 1) / b + (-t) / b = 0 := by
    by_contra hne
    rcases lt_or_gt_of_ne hne with hlt | hgt
    · have hle : (t + b - 1) / b + (-t) / b ≤ -1 := by omega
      have := mul_le_mul_of_nonneg_left hle hb0
      have hmb : b * (-1 : Int) = -b := by ring
      rw [hmb] at this
      linarith
    · have hge : (1 : Int) ≤ (t + b - 1) / b + (-t) / b := by omega
      have := mul_le_mul_of_nonneg_left hge hb0
      have hmb : b * (1 : Int) = b := by ring
      rw [hmb] at this
      linarith
  omega

/-- Evaluation of `_search_issues` under a constant successful search
oracle, with integer page inputs and a present, non-empty search text. -/
theorem search_issues_eval (client : JiraClient) (co : Option Val) (d : Data)
    (p ps : Int) (st : String) (l : List Issue) (t : Int)
    (hp : lookupVal d "page" = some (.vInt p))
    (hps : lookupVal d "page_size" = some (.vInt ps))
    (hst : lookupVal d "search_text" = some (.vStr st))
    (hstne : st ≠ "")
    (hsearch : ∀ q s n, client.search_issues q s n = .ok ⟨l, t⟩) :
    _search_issues client ⟨co, some d⟩ =
      ([.searchCalled (search_jql (((lookupVal d "title_only").getD (.vBool false)).truthy) st)
          ((max 1 p - 1) * min client.max_results ps) (min client.max_results ps)],
       match pyFloorDiv (t + min client.max_results ps - 1) (min client.max_results ps) with
       | .error e => .ok (searchExcept e)
       | .ok tp => .ok (successDataEnv (.obj
           [("issues", .arr (l.map shapeSearchIssue)),
            ("pagination", paginationJ t (max 1 p) (min client.max_results ps) tp)]))) := by
  unfold _search_issues
  simp [hp, hps, hst, hstne, hsearch, pyInt, getTruthy, Val.truthy, pyStr]
  cases pyFloorDiv (t + min client.max_results ps - 1) (min client.max_results ps) <;>
    simp [hstne]

/-- Evaluation of `_get_my_issues` under a constant successful search
oracle with integer page inputs. -/
theorem my_issues_eval (client : JiraClient) (co : Option Val) (d : Data)
    (p ps : Int) (so : String) (l : List Issue) (t : Int)
    (hp : lookupVal d "page" = some (.vInt p))
    (hps : lookupVal d "page_size" = some (.vInt ps))
    (hso : pyUpper ((lookupVal d "sort_order").getD (.vStr "DESC")) = .ok so)
    (hsearch : ∀ q s n, client.search_issues q s n = .ok ⟨l, t⟩) :
    _get_my_issues client ⟨co, some d⟩ =
      ([.searchCalled
          (build_my_issues_jql (lookupVal d "status") (lookupVal d "project")
            ((lookupVal d "sort_by").getD (.vStr "updated")) so)
          ((max 1 p - 1) * min client.max_results ps) (min client.max_results ps)],
       match pyFloorDiv (t + min client.max_results ps - 1) (min client.max_results ps) with
       | .error e => .ok (searchExcept e)
       | .ok tp => .ok (successDataEnv (.obj
           [("issues", .arr (l.map shapeMyIssue)),
            ("pagination", paginationJ t (max 1 p) (min client.max_results ps) tp)]))) := by
  unfold _get_my_issues _get_my_issues_body
  simp [hp, hps, hso, hsearch, pyInt]
  cases pyFloorDiv (t + min client.max_results ps - 1) (min client.max_results ps) <;>
    simp

/-- Evaluation of `_get_epic_with_subtasks` when the epic lookup returns
no candidate. -/
theorem epic_eval_empty (client : JiraClient) (co : Option Val) (d : Data)
    (p ps : Int) (en : String) (t : Int)
    (hp : lookupVal d "page" = some (.vInt p))
    (hps : lookupVal d "page_size" = some (.vInt ps))
    (hen : lookupVal d "epic_name" = some (.vStr en))
    (henne : en ≠ "")
    (hsearch : ∀ q s n, client.search_issues q s n = .ok ⟨[], t⟩) :
    _get_epic_with_subtasks client ⟨co, some d⟩ =
      ([.searchCalled (epic_jql en) 0 5],
       .ok (errEnv ("No epic found with name containing \"" ++ en ++ "\""))) := by
  unfold _get_epic_with_subtasks
  simp [hp, hps, hen, henne, hsearch, pyInt, getTruthy, Val.truthy, pyStr]

/-- Evaluation of `_get_epic_with_subtasks` when the epic lookup returns
at least one candidate. -/
theorem epic_eval_cons (client : JiraClient) (co : Option Val) (d : Data)
    (p ps : Int) (en : String) (t : Int) (e0 : Issue) (rest : List Issue)
    (hp : lookupVal d "page" = some (.vInt p))
    (hps : lookupVal d "page_size" = some (.vInt ps))
    (hen : lookupVal d "epic_name" = some (.vStr en))
    (henne : en ≠ "")
    (hsearch : ∀ q s n, client.search_issues q s n = .ok ⟨e0 :: rest, t⟩) :
    _get_epic_with_subtasks client ⟨co, some d⟩ =
      ([.searchCalled (epic_jql en) 0 5,
        .searchCalled (subtasks_jql (chooseEpic en e0 rest).key)
          ((max 1 p - 1) * min client.max_results ps) (min client.max_results ps)],
       match pyFloorDiv (t + min client.max_results ps - 1) (min client.max_results ps) with
       | .error e => .ok (searchExcept e)
       | .ok tp => .ok (successDataEnv (.obj
           [("epic", shapeEpic (chooseEpic en e0 rest)),
            ("subtasks", .obj
              [("issues", .arr ((e0 :: rest).map shapeSubtask)),
               ("pagination", paginationJ t (max 1 p) (min client.max_results ps) tp)])]))) := by
  unfold _get_epic_with_subtasks
  simp [hp, hps, hen, henne, hsearch, pyInt, getTruthy, Val.truthy, pyStr]
  cases pyFloorDiv (t + min client.max_results ps - 1) (min client.max_results ps) <;>
    simp

/-- When no transition's destination name matches the lowered target, the
matching loop returns the full list of destination names and no id. -/
theorem findTransition_no_match (target : String) (ts : List Transition)
    (h : ∀ tr ∈ ts, strLower tr.toName ≠ target) :
    findTransition target ts = (ts.map (·.toName), none) := by
  induction ts with
  | nil => rfl
  | cons t rest ih =>
    have ht : strLower t.toName ≠ target := h t (by simp)
    have hrest : ∀ tr ∈ rest, strLower tr.toName ≠ target :=
      fun tr htr => h tr (by simp [htr])
    simp [findTransition, ht, ih hrest]

/-- Claim C2: an update_issue message whose requested status matches no
available transition destination name (case-insensitively) returns an
error envelope whose message enumerates all available destination names,
and issues no outbound call at all — no transition and no field update. -/
theorem update_issue_no_transition (client : JiraClient) (co : Option Val)
    (d : Data) (ikV : Val) (s : String) (issue : Issue) (ts : List Transition)
    (hik : getTruthy d "issue_key" = some ikV)
    (hst : lookupVal d "status" = some (.vStr s))
    (hissue : client.issue (pyStr ikV) = .ok issue)
    (htr : client.transitions issue = .ok ts)
    (hnm : ∀ tr ∈ ts, strLower tr.toName ≠ strLower s) :
    _update_issue client ⟨co, some d⟩ =
      ([], .ok (errEnv ("No transition found to status: " ++ s
        ++ ". Available status transitions are: "
        ++ String.intercalate ", " (ts.map (·.toName)))))
    ∧ (findTransition (strLower s) ts).1 = ts.map (·.toName) := by
  have hfind := findTransition_no_match (strLower s) ts hnm
  constructor
  · unfold _update_issue
    have h1 : pyStr (Val.vStr s) = s := rfl
    have h2 : pyLower (Val.vStr s) = .ok (strLower s) := rfl
    simp [hik, hst, hissue, htr, hfind, h1, h2]
  · rw [hfind]

/-- Concrete transitions used by witnesses. -/
def tr1 : Transition := ⟨"11", "Start", "In Progress"⟩

/-- Second concrete transition used by witnesses. -/
def tr2 : Transition := ⟨"21", "Finish", "Done"⟩

/-- Concrete client for the C2 witness. -/
def clW2 : JiraClient :=
  mkClient 50 (.error (.other "n")) (.ok issue0) (.ok [tr1, tr2]) (.error (.other "n"))

/-- Witness for C2 at a concrete message: requesting status Blocked when
the available transitions lead to In Progress and Done yields the
enumerating error envelope and an empty effect trace. -/
theorem update_issue_no_transition_witness :
    (∀ tr ∈ [tr1, tr2], strLower tr.toName ≠ strLower "Blocked") ∧
    _update_issue clW2
        ⟨some (.vStr "update_issue"),
         some [("issue_key", .vStr "PR-1"), ("status", .vStr "Blocked")]⟩ =
      ([], .ok (errEnv ("No transition found to status: " ++ "Blocked"
        ++ ". Available status transitions are: "
        ++ String.intercalate ", " ([tr1, tr2].map (·.toName))))) :=
  ⟨by decide,
   (update_issue_no_transition clW2 (some (.vStr "update_issue"))
      [("issue_key", .vStr "PR-1"), ("status", .vStr "Blocked")]
      (.vStr "PR-1") "Blocked" issue0 [tr1, tr2]
      rfl rfl rfl rfl (by decide)).1⟩

/-- Claim C5: for every paginated command (search_issues,
get_epic_with_subtasks, get_my_issues) the search offset passed to the
external client equals (page-1)*page_size, a page of 0 or less behaves as
page 1, and a page_size at or above the configured maximum is capped to
that maximum. -/
theorem pagination_offset_and_clamping (client : JiraClient) (co : Option Val)
    (d : Data) (p ps : Int) (st en so : String) (t : Int)
    (e0 : Issue) (rest : List Issue)
    (hp : lookupVal d "page" = some (.vInt p))
    (hps : lookupVal d "page_size" = some (.vInt ps))
    (hst : lookupVal d "search_text" = some (.vStr st)) (hstne : st ≠ "")
    (hen : lookupVal d "epic_name" = some (.vStr en)) (henne : en ≠ "")
    (hso : pyUpper ((lookupVal d "sort_order").getD (.vStr "DESC")) = .ok so)
    (hsearch : ∀ q s n, client.search_issues q s n = .ok ⟨e0 :: rest, t⟩) :
    (_search_issues client ⟨co, some d⟩).1 =
      [.searchCalled (search_jql (((lookupVal d "title_only").getD (.vBool false)).truthy) st)
        ((max 1 p - 1) * min client.max_results ps) (min client.max_results ps)]
    ∧ (_get_my_issues client ⟨co, some d⟩).1 =
      [.searchCalled (build_my_issues_jql (lookupVal d "status") (lookupVal d "project")
          ((lookupVal d "sort_by").getD (.vStr "updated")) so)
        ((max 1 p - 1) * min client.max_results ps) (min client.max_results ps)]
    ∧ (_get_epic_with_subtasks client ⟨co, some d⟩).1 =
      [.searchCalled (epic_jql en) 0 5,
       .searchCalled (subtasks_jql (chooseEpic en e0 rest).key)
         ((max 1 p - 1) * min client.max_results ps) (min client.max_results ps)]
    ∧ (p ≤ 0 → max 1 p = 1)
    ∧ (client.max_results ≤ ps → min client.max_results ps = client.max_results) := by
  refine ⟨?_, ?_, ?_, fun h => by omega, fun h => by omega⟩
  · rw [search_issues_eval client co d p ps st (e0 :: rest) t hp hps hst hstne hsearch]
  · rw [my_issues_eval client co d p ps so (e0 :: rest) t hp hps hso hsearch]
  · rw [epic_eval_cons client co d p ps en t e0 rest hp hps hen henne hsearch]

/-- Concrete client for the pagination witnesses: maximum page size 50,
every search answering one issue with total 7. -/
def clW5 : JiraClient :=
  mkClient 50 (.error (.other "n")) (.error (.other "n")) (.ok []) (.ok ⟨[issue0], 7⟩)

/-- Concrete payload for the pagination witnesses: page 0 and a page size
above the maximum. -/
def dW5 : Data :=
  [("page", .vInt 0), ("page_size", .vInt 60),
   ("search_text", .vStr "x"), ("epic_name", .vStr "Login epic")]

/-- Witness for C5 at page 0 and page size 60 against a maximum of 50. -/
theorem pagination_offset_and_clamping_witness :
    ("x" ≠ "") ∧
    ((_search_issues clW5 ⟨some (.vStr "search_issues"), some dW5⟩).1 =
      [.searchCalled (search_jql (((lookupVal dW5 "title_only").getD (.vBool false)).truthy) "x")
        ((max 1 0 - 1) * min clW5.max_results 60) (min clW5.max_results 60)]
    ∧ (_get_my_issues clW5 ⟨some (.vStr "search_issues"), some dW5⟩).1 =
      [.searchCalled (build_my_issues_jql (lookupVal dW5 "status") (lookupVal dW5 "project")
          ((lookupVal dW5 "sort_by").getD (.vStr "updated")) "DESC")
        ((max 1 0 - 1) * min clW5.max_results 60) (min clW5.max_results 60)]
    ∧ (_get_epic_with_subtasks clW5 ⟨some (.vStr "search_issues"), some dW5⟩).1 =
      [.searchCalled (epic_jql "Login epic") 0 5,
       .searchCalled (subtasks_jql (chooseEpic "Login epic" issue0 []).key)
         ((max 1 0 - 1) * min clW5.max_results 60) (min clW5.max_results 60)]
    ∧ ((0 : Int) ≤ 0 → max 1 (0 : Int) = 1)
    ∧ (clW5.max_results ≤ 60 → min clW5.max_results 60 = clW5.max_results)) :=
  ⟨by decide,
   pagination_offset_and_clamping clW5 (some (.vStr "search_issues")) dW5
     0 60 "x" "Login epic" "DESC" 7 issue0 []
     rfl rfl rfl (by decide) rfl (by decide) rfl (fun _ _ _ => rfl)⟩

/-- Concrete client for the C3 counterexample: maximum 50, searches
answer an empty page with total 1. -/
def clC3 : JiraClient :=
  mkClient 50 (.error (.other "n")) (.error (.other "n")) (.ok []) (.ok ⟨[], 1⟩)

/-- Concrete search_issues message with a negative requested page size. -/
def msgC3 : Msg :=
  ⟨some (.vStr "search_issues"),
   some [("search_text", .vStr "x"), ("page_size", .vInt (-1))]⟩

/-- Counterexample to C3 as stated: with requested page_size = -1 (not
exceeding the maximum, so kept as is) and total 1, the handler returns a
success response whose pagination block carries total_pages = 1, while
ceil(1 / -1) = -1, so total_pages differs from ceil(total / page_size)
for this requested page_size. -/
theorem pagination_ceil_counterexample :
    (_search_issues clC3 msgC3).2 =
      .ok (successDataEnv (.obj
        [("issues", .arr []), ("pagination", paginationJ 1 1 (-1) 1)]))
    ∧ (1 : Int) ≠ ceilD 1 (-1)
    ∧ (-1 : Int) ≤ clC3.max_results :=
  ⟨rfl, by decide, by decide⟩

/-- Claim C3 amended: for every requested page_size ≥ 1 (values above the
configured maximum are capped to it) and integer page, each of the three
search commands returns a success response whose pagination block
satisfies total_pages = ceil(total / page_size) and page_size ≤ maximum;
for zero or negative requested page_size the identity is not guaranteed,
as the value is not clamped from below. -/
theorem pagination_total_pages_ceil (client : JiraClient) (co : Option Val)
    (d : Data) (p ps : Int) (st en so : String) (t : Int)
    (e0 : Issue) (rest : List Issue)
    (hmax : 1 ≤ client.max_results) (hps1 : 1 ≤ ps)
    (hp : lookupVal d "page" = some (.vInt p))
    (hps : lookupVal d "page_size" = some (.vInt ps))
    (hst : lookupVal d "search_text" = some (.vStr st)) (hstne : st ≠ "")
    (hen : lookupVal d "epic_name" = some (.vStr en)) (henne : en ≠ "")
    (hso : pyUpper ((lookupVal d "sort_order").getD (.vStr "DESC")) = .ok so)
    (hsearch : ∀ q s n, client.search_issues q s n = .ok ⟨e0 :: rest, t⟩) :
    (_search_issues client ⟨co, some d⟩).2 =
      .ok (successDataEnv (.obj
        [("issues", .arr ((e0 :: rest).map shapeSearchIssue)),
         ("pagination", paginationJ t (max 1 p) (min client.max_results ps)
            (ceilD t (min client.max_results ps)))]))
    ∧ (_get_my_issues client ⟨co, some d⟩).2 =
      .ok (successDataEnv (.obj
        [("issues", .arr ((e0 :: rest).map shapeMyIssue)),
         ("pagination", paginationJ t (max 1 p) (min client.max_results ps)
            (ceilD t (min client.max_results ps)))]))
    ∧ (_get_epic_with_subtasks client ⟨co, some d⟩).2 =
      .ok (successDataEnv (.obj
        [("epic", shapeEpic (chooseEpic en e0 rest)),
         ("subtasks", .obj
           [("issues", .arr ((e0 :: rest).map shapeSubtask)),
            ("pagination", paginationJ t (max 1 p) (min client.max_results ps)
               (ceilD t (min client.max_results ps)))])]))
    ∧ min client.max_results ps ≤ client.max_results := by
  have hpos : 0 < min client.max_results ps := by omega
  have hne : min client.max_results ps ≠ 0 := by omega
  have hfd : pyFloorDiv (t + min client.max_results ps - 1) (min client.max_results ps)
      = .ok (ceilD t (min client.max_results ps)) := by
    simp [pyFloorDiv, hne, fdiv_formula_eq_ceilD t _ hpos]
  refine ⟨?_, ?_, ?_, min_le_left _ _⟩
  · rw [search_issues_eval client co d p ps st (e0 :: rest) t hp hps hst hstne hsearch, hfd]
  · rw [my_issues_eval client co d p ps so (e0 :: rest) t hp hps hso hsearch, hfd]
  · rw [epic_eval_cons client co d p ps en t e0 rest hp hps hen henne hsearch, hfd]

/-- Witness for the amended C3, at page 0, page_size 60, maximum 50,
total 7: every pagination block carries total_pages = ceil(7/50) and a
capped page_size. -/
theorem pagination_total_pages_ceil_witness :
    ((1 : Int) ≤ clW5.max_results ∧ (1 : Int) ≤ 60) ∧
    ((_search_issues clW5 ⟨some (.vStr "search_issues"), some dW5⟩).2 =
      .ok (successDataEnv (.obj
        [("issues", .arr ([issue0].map shapeSearchIssue)),
         ("pagination", paginationJ 7 (max 1 0) (min clW5.max_results 60)
            (ceilD 7 (min clW5.max_results 60)))]))
    ∧ (_get_my_issues clW5 ⟨some (.vStr "search_issues"), some dW5⟩).2 =
      .ok (successDataEnv (.obj
        [("issues", .arr ([issue0].map shapeMyIssue)),
         ("pagination", paginationJ 7 (max 1 0) (min clW5.max_results 60)
            (ceilD 7 (min clW5.max_results 60)))]))
    ∧ (_get_epic_with_subtasks clW5 ⟨some (.vStr "search_issues"), some dW5⟩).2 =
      .ok (successDataEnv (.obj
        [("epic", shapeEpic (chooseEpic "Login epic" issue0 [])),
         ("subtasks", .obj
           [("issues", .arr ([issue0].map shapeSubtask)),
            ("pagination", paginationJ 7 (max 1 0) (min clW5.max_results 60)
               (ceilD 7 (min clW5.max_results 60)))])]))
    ∧ min clW5.max_results 60 ≤ clW5.max_results) :=
  ⟨⟨by decide, by decide⟩,
   pagination_total_pages_ceil clW5 (some (.vStr "search_issues")) dW5
     0 60 "x" "Login epic" "DESC" 7 issue0 []
     (by decide) (by decide) rfl rfl rfl (by decide) rfl (by decide) rfl
     (fun _ _ _ => rfl)⟩

/-- Claim C6: for every search_issues message with search text present,
the query is built conjunctively with AND, matches summary only when
title_only is truthy and summary OR description otherwise, and in both
cases excludes issue type Epic; the handler passes exactly this query to
the external search, whatever the external client answers. -/
theorem search_jql_policy (client : JiraClient) (co : Option Val) (d : Data)
    (p ps : Int) (st : String)
    (hp : lookupVal d "page" = some (.vInt p))
    (hps : lookupVal d "page_size" = some (.vInt ps))
    (hst : lookupVal d "search_text" = some (.vStr st)) (hstne : st ≠ "") :
    search_jql true st = "summary ~ \"" ++ st ++ "\" AND issuetype != Epic"
    ∧ search_jql false st =
        "(summary ~ \"" ++ st ++ "\" OR description ~ \"" ++ st
          ++ "\") AND issuetype != Epic"
    ∧ (_search_issues client ⟨co, some d⟩).1 =
        [.searchCalled
          (search_jql (((lookupVal d "title_only").getD (.vBool false)).truthy) st)
          ((max 1 p - 1) * min client.max_results ps) (min client.max_results ps)] := by
  refine ⟨rfl, rfl, ?_⟩
  unfold _search_issues
  have h1 : pyStr (Val.vStr st) = st := rfl
  simp [hp, hps, hst, hstne, pyInt, getTruthy, Val.truthy, h1]
  split
  · rfl
  · split <;> rfl

/-- Witness for C6 with title_only true and an arbitrary failing client. -/
theorem search_jql_policy_witness :
    ("login" ≠ "") ∧
    (search_jql true "login" = "summary ~ \"" ++ "login" ++ "\" AND issuetype != Epic"
    ∧ search_jql false "login" =
        "(summary ~ \"" ++ "login" ++ "\" OR description ~ \"" ++ "login"
          ++ "\") AND issuetype != Epic"
    ∧ (_search_issues clC3
        ⟨some (.vStr "search_issues"),
         some [("page", .vInt 2), ("page_size", .vInt 10),
               ("search_text", .vStr "login"), ("title_only", .vBool true)]⟩).1 =
        [.searchCalled
          (search_jql (((lookupVal [("page", .vInt 2), ("page_size", .vInt 10),
               ("search_text", .vStr "login"), ("title_only", .vBool true)]
               "title_only").getD (.vBool false)).truthy) "login")
          ((max 1 2 - 1) * min clC3.max_results 10) (min clC3.max_results 10)]) :=
  ⟨by decide,
   search_jql_policy clC3 (some (.vStr "search_issues"))
     [("page", .vInt 2), ("page_size", .vInt 10),
      ("search_text", .vStr "login"), ("title_only", .vBool true)]
     2 10 "login" rfl rfl rfl (by decide)⟩

/-- The get_my_issues wrapper only converts exceptions; the effect trace
is that of the body. -/
theorem my_issues_effects_eq (client : JiraClient) (co : Option Val) (d : Data) :
    (_get_my_issues client ⟨co, some d⟩).1 = (_get_my_issues_body client d).1 := by
  unfold _get_my_issues
  rcases hb : _get_my_issues_body client d with ⟨effs, r⟩
  cases r <;> simp [hb]

/-- Effect trace of the get_my_issues body under any external client:
exactly one search, with the built query. -/
theorem my_issues_body_effects (client : JiraClient) (d : Data)
    (p ps : Int) (so : String)
    (hp : lookupVal d "page" = some (.vInt p))
    (hps : lookupVal d "page_size" = some (.vInt ps))
    (hso : pyUpper ((lookupVal d "sort_order").getD (.vStr "DESC")) = .ok so) :
    (_get_my_issues_body client d).1 =
      [.searchCalled
        (build_my_issues_jql (lookupVal d "status") (lookupVal d "project")
          ((lookupVal d "sort_by").getD (.vStr "updated")) so)
        ((max 1 p - 1) * min client.max_results ps) (min client.max_results ps)] := by
  unfold _get_my_issues_body
  simp [hp, hps, hso, pyInt]
  split
  · rfl
  · split <;> rfl

/-- Claim C4: get_my_issues appends an ORDER BY clause exactly when the
requested sort field is one of created, updated, priority, status,
duedate (otherwise the query is the bare conjunctive filter), and the
direction used is the upper-cased requested order, defaulting to DESC
when absent. -/
theorem my_issues_sort_policy :
    (∀ (status project : Option Val) (so : String), ∃ base : String,
       (∀ sb : String, sb ∈ ["created", "updated", "priority", "status", "duedate"] →
          build_my_issues_jql status project (.vStr sb) so
            = base ++ " ORDER BY " ++ sb ++ " " ++ so)
       ∧ (∀ sbv : Val,
            sbv ∉ [Val.vStr "created", Val.vStr "updated", Val.vStr "priority",
                   Val.vStr "status", Val.vStr "duedate"] →
            build_my_issues_jql status project sbv so = base))
    ∧ (∀ (client : JiraClient) (co : Option Val) (d : Data) (p ps : Int) (so : String),
         lookupVal d "page" = some (.vInt p) →
         lookupVal d "page_size" = some (.vInt ps) →
         pyUpper ((lookupVal d "sort_order").getD (.vStr "DESC")) = .ok so →
         (_get_my_issues client ⟨co, some d⟩).1 =
           [.searchCalled
             (build_my_issues_jql (lookupVal d "status") (lookupVal d "project")
               ((lookupVal d "sort_by").getD (.vStr "updated")) so)
             ((max 1 p - 1) * min client.max_results ps) (min client.max_results ps)])
    ∧ (∀ (d : Data) (s : String), lookupVal d "sort_order" = some (.vStr s) →
         pyUpper ((lookupVal d "sort_order").getD (.vStr "DESC")) = .ok (strUpper s))
    ∧ (∀ d : Data, lookupVal d "sort_order" = none →
         pyUpper ((lookupVal d "sort_order").getD (.vStr "DESC")) = .ok "DESC")
    ∧ strUpper "asc" = "ASC" ∧ strUpper "desc" = "DESC" := by
  refine ⟨?_, ?_, ?_, ?_, by decide, by decide⟩
  · intro status project so
    refine ⟨String.intercalate " AND "
      (["assignee = currentUser()"]
       ++ (match status with
           | some v => if v.truthy then ["status = \"" ++ pyStr v ++ "\""] else []
           | none => [])
       ++ (match project with
           | some v => if v.truthy then ["project = \"" ++ pyStr v ++ "\""] else []
           | none => [])), ?_, ?_⟩
    · intro sb hsb
      fin_cases hsb <;> rfl
    · intro sbv hsbv
      unfold build_my_issues_jql
      rw [if_neg hsbv]
  · intro client co d p ps so hp hps hso
    rw [my_issues_effects_eq, my_issues_body_effects client d p ps so hp hps hso]
  · intro d s hs
    rw [hs]
    rfl
  · intro d hs
    rw [hs]
    rfl

/-- Witness for C4 at a concrete payload: sort_by priority and sort_order
asc give an ORDER BY priority ASC suffix; sort_by of an unlisted value
leaves the query bare. -/
theorem my_issues_sort_policy_witness :
    (lookupVal [("page", .vInt 1), ("page_size", .vInt 10),
                ("sort_by", .vStr "priority"), ("sort_order", .vStr "asc")]
       "page" = some (.vInt 1)) ∧
    (_get_my_issues clC3
       ⟨some (.vStr "get_my_issues"),
        some [("page", .vInt 1), ("page_size", .vInt 10),
              ("sort_by", .vStr "priority"), ("sort_order", .vStr "asc")]⟩).1 =
      [.searchCalled
        (build_my_issues_jql none none (.vStr "priority") "ASC")
        ((max 1 1 - 1) * min clC3.max_results 10) (min clC3.max_results 10)] ∧
    build_my_issues_jql none none (.vStr "priority") "ASC"
      = "assignee = currentUser()" ++ " ORDER BY " ++ "priority" ++ " " ++ "ASC" ∧
    build_my_issues_jql none none (.vStr "resolution") "ASC"
      = "assignee = currentUser()" := by
  refine ⟨rfl, ?_, by decide, by decide⟩
  exact (my_issues_sort_policy.2.1 clC3 (some (.vStr "get_my_issues"))
    [("page", .vInt 1), ("page_size", .vInt 10),
     ("sort_by", .vStr "priority"), ("sort_order", .vStr "asc")]
    1 10 "ASC" rfl rfl rfl)

/-- Claim C7: the epic lookup asks the external client for at most 5
candidates; among a non-empty candidate list the epic whose summary
equals the requested name case-insensitively is selected when one exists
(the subtask query is issued against its key), otherwise the first
candidate is selected; an empty candidate list yields an error
envelope. -/
theorem epic_selection (client : JiraClient) (co : Option Val) (d : Data)
    (p ps : Int) (en : String) (t : Int) (e0 : Issue) (rest : List Issue)
    (hp : lookupVal d "page" = some (.vInt p))
    (hps : lookupVal d "page_size" = some (.vInt ps))
    (hen : lookupVal d "epic_name" = some (.vStr en)) (henne : en ≠ "")
    (hsearch : ∀ q s n, client.search_issues q s n = .ok ⟨e0 :: rest, t⟩) :
    (_get_epic_with_subtasks client ⟨co, some d⟩).1 =
      [.searchCalled (epic_jql en) 0 5,
       .searchCalled (subtasks_jql (chooseEpic en e0 rest).key)
         ((max 1 p - 1) * min client.max_results ps) (min client.max_results ps)]
    ∧ ((∃ e ∈ e0 :: rest, strLower e.fields.summary = strLower en) →
        strLower (chooseEpic en e0 rest).fields.summary = strLower en)
    ∧ ((∀ e ∈ e0 :: rest, strLower e.fields.summary ≠ strLower en) →
        chooseEpic en e0 rest = e0)
    ∧ (∀ (client2 : JiraClient) (t2 : Int),
         (∀ q s n, client2.search_issues q s n = .ok ⟨[], t2⟩) →
         _get_epic_with_subtasks client2 ⟨co, some d⟩ =
           ([.searchCalled (epic_jql en) 0 5],
            .ok (errEnv ("No epic found with name containing \"" ++ en ++ "\"")))) := by
  refine ⟨?_, ?_, ?_, ?_⟩
  · rw [epic_eval_cons client co d p ps en t e0 rest hp hps hen henne hsearch]
  · intro hex
    unfold chooseEpic
    rcases hfind : (e0 :: rest).find? (fun e => strLower e.fields.summary = strLower en)
      with _ | e
    · rw [List.find?_eq_none] at hfind
      rcases hex with ⟨e, he, hm⟩
      exact absurd (by simp [hm]) (hfind e he)
    · have hpe := List.find?_some hfind
      simp only [decide_eq_true_eq] at hpe
      rw [hfind]
      simpa using hpe
  · intro hall
    unfold chooseEpic
    have hnone : (e0 :: rest).find? (fun e => strLower e.fields.summary = strLower en)
        = none := by
      rw [List.find?_eq_none]
      intro e he
      simp [hall e he]
    simp [hnone]
  · intro client2 t2 hs2
    exact epic_eval_empty client2 co d p ps en t2 hp hps hen henne hs2

/-- Second concrete epic candidate: a fuzzy match only. -/
def epicA : Issue :=
  ⟨"PR-9", "109", "https://x/PR-9",
   { fields0 with summary := "Login epic cleanup" }⟩

/-- Concrete client for the C7 witness: the epic search returns the fuzzy
match first and the exact match second. -/
def clW7 : JiraClient :=
  mkClient 50 (.error (.other "n")) (.error (.other "n")) (.ok [])
    (.ok ⟨[epicA, issue0], 3⟩)

/-- Payload for the C7 witness: epic name differing from the stored
summary only by case. -/
def dW7 : Data :=
  [("page", .vInt 1), ("page_size", .vInt 10), ("epic_name", .vStr "LOGIN EPIC")]

/-- Witness for C7: with candidates [fuzzy, exact] the exact
case-insensitive match is selected and its key drives the subtask query;
with no candidates the error envelope is returned. -/
theorem epic_selection_witness :
    (∃ e ∈ [epicA, issue0], strLower e.fields.summary = strLower "LOGIN EPIC") ∧
    strLower (chooseEpic "LOGIN EPIC" epicA [issue0]).fields.summary
      = strLower "LOGIN EPIC" ∧
    (_get_epic_with_subtasks clW7 ⟨some (.vStr "get_epic_with_subtasks"), some dW7⟩).1 =
      [.searchCalled (epic_jql "LOGIN EPIC") 0 5,
       .searchCalled (subtasks_jql (chooseEpic "LOGIN EPIC" epicA [issue0]).key)
         ((max 1 1 - 1) * min clW7.max_results 10) (min clW7.max_results 10)] ∧
    _get_epic_with_subtasks clC3 ⟨some (.vStr "get_epic_with_subtasks"), some dW7⟩ =
      ([.searchCalled (epic_jql "LOGIN EPIC") 0 5],
       .ok (errEnv ("No epic found with name containing \"" ++ "LOGIN EPIC" ++ "\""))) := by
  have h := epic_selection clW7 (some (.vStr "get_epic_with_subtasks")) dW7
    1 10 "LOGIN EPIC" 3 epicA [issue0] rfl rfl rfl (by decide) (fun _ _ _ => rfl)
  exact ⟨by decide, h.2.1 (by decide), h.1, h.2.2.2 clC3 1 (fun _ _ _ => rfl)⟩

/-- Concrete client whose create call succeeds. -/
def clC1 : JiraClient :=
  mkClient 50 (.ok issue0) (.error (.other "n")) (.ok []) (.error (.other "n"))

/-- Concrete create_issue message of type Subtask with no parent_issue. -/
def msgC1 : Msg :=
  ⟨some (.vStr "create_issue"),
   some [("project", .vStr "P"), ("summary", .vStr "S"),
         ("description", .vStr "D"), ("issue_type", .vStr "Subtask")]⟩

/-- Counterexample to C1 as stated: a Subtask request missing parent_issue
is not rejected — the handler issues the create call (with no parent
field) and returns a success envelope, not an error envelope. -/
theorem create_subtask_missing_parent_counterexample :
    (_create_issue clC1 msgC1).2 =
      .ok (successDataEnv (.obj
        [("issue_key", .s "PR-1"), ("issue_id", .s "100"),
         ("self", .s "https://x/PR-1")]))
    ∧ (_create_issue clC1 msgC1).1 =
      [.createIssue
        [("project", .obj [("key", .s "P")]),
         ("summary", .s "S"),
         ("description", .s "D"),
         ("issuetype", .obj [("name", .s "Subtask")])]] :=
  ⟨rfl, rfl⟩

/-- Claim C1 amended: missing project, summary or description yields the
error envelope with nothing created; issue_type defaults to Task; but
parent_issue is not validated — a Subtask request without parent_issue is
not rejected: the create call is issued without a parent field and
succeeds when the external create succeeds. -/
theorem create_issue_validation (client : JiraClient) (co : Option Val) (d : Data) :
    ((lookupVal d "project" = none ∨ lookupVal d "summary" = none
        ∨ lookupVal d "description" = none) →
      _create_issue client ⟨co, some d⟩ = ([], .ok (errEnv "Missing required fields")))
    ∧ (∀ proj summ desc,
        lookupVal d "project" = some proj →
        lookupVal d "summary" = some summ →
        lookupVal d "description" = some desc →
        lookupVal d "issue_type" = none →
        (_create_issue client ⟨co, some d⟩).1 =
          [.createIssue
            [("project", .obj [("key", valJ proj)]),
             ("summary", valJ summ),
             ("description", valJ desc),
             ("issuetype", .obj [("name", .s "Task")])]])
    ∧ (∀ proj summ desc,
        lookupVal d "project" = some proj →
        lookupVal d "summary" = some summ →
        lookupVal d "description" = some desc →
        lookupVal d "issue_type" = some (.vStr "Subtask") →
        lookupVal d "parent_issue" = none →
        (_create_issue client ⟨co, some d⟩).1 =
          [.createIssue
            [("project", .obj [("key", valJ proj)]),
             ("summary", valJ summ),
             ("description", valJ desc),
             ("issuetype", .obj [("name", .s "Subtask")])]]
        ∧ ∀ issue, (∀ f, client.create_issue f = .ok issue) →
            (_create_issue client ⟨co, some d⟩).2 =
              .ok (successDataEnv (.obj
                [("issue_key", .s issue.key), ("issue_id", .s issue.id),
                 ("self", .s issue.self)]))) := by
  refine ⟨?_, ?_, ?_⟩
  · intro h
    unfold _create_issue
    rcases hpj : lookupVal d "project" with _ | vp <;>
      rcases hsm : lookupVal d "summary" with _ | vs <;>
        rcases hds : lookupVal d "description" with _ | vd <;>
          simp_all
  · intro proj summ desc hpj hsm hds hit
    unfold _create_issue
    simp only [Msg.data, Option.getD_some, hpj, hsm, hds, hit]
    split <;> rfl
  · intro proj summ desc hpj hsm hds hit hpar
    constructor
    · unfold _create_issue
      simp only [Msg.data, Option.getD_some, hpj, hsm, hds, hit, hpar]
      split <;> rfl
    · intro issue hok
      unfold _create_issue
      simp [hpj, hsm, hds, hit, hpar, hok]

/-- Witness for the amended C1: a payload without project is rejected; a
full payload without issue_type creates with type Task; the Subtask
payload without parent_issue creates with no parent field and returns
success. -/
theorem create_issue_validation_witness :
    (lookupVal [("summary", Val.vStr "S"), ("description", Val.vStr "D")] "project" = none) ∧
    _create_issue clC1 ⟨some (.vStr "create_issue"),
        some [("summary", .vStr "S"), ("description", .vStr "D")]⟩ =
      ([], .ok (errEnv "Missing required fields")) ∧
    (_create_issue clC1 ⟨some (.vStr "create_issue"),
        some [("project", .vStr "P"), ("summary", .vStr "S"),
              ("description", .vStr "D")]⟩).1 =
      [.createIssue
        [("project", .obj [("key", .s "P")]), ("summary", .s "S"),
         ("description", .s "D"), ("issuetype", .obj [("name", .s "Task")])]] ∧
    (_create_issue clC1 msgC1).1 =
      [.createIssue
        [("project", .obj [("key", .s "P")]), ("summary", .s "S"),
         ("description", .s "D"), ("issuetype", .obj [("name", .s "Subtask")])]] ∧
    (_create_issue clC1 msgC1).2 =
      .ok (successDataEnv (.obj
        [("issue_key", .s "PR-1"), ("issue_id", .s "100"),
         ("self", .s "https://x/PR-1")])) := by
  refine ⟨rfl, ?_, ?_, ?_, ?_⟩
  · exact (create_issue_validation clC1 (some (.vStr "create_issue"))
      [("summary", .vStr "S"), ("description", .vStr "D")]).1 (Or.inl rfl)
  · exact (create_issue_validation clC1 (some (.vStr "create_issue"))
      [("project", .vStr "P"), ("summary", .vStr "S"), ("description", .vStr "D")]).2.1
      (.vStr "P") (.vStr "S") (.vStr "D") rfl rfl rfl rfl
  · exact ((create_issue_validation clC1 (some (.vStr "create_issue"))
      [("project", .vStr "P"), ("summary", .vStr "S"),
       ("description", .vStr "D"), ("issue_type", .vStr "Subtask")]).2.2
      (.vStr "P") (.vStr "S") (.vStr "D") rfl rfl rfl rfl rfl).1
  · exact ((create_issue_validation clC1 (some (.vStr "create_issue"))
      [("project", .vStr "P"), ("summary", .vStr "S"),
       ("description", .vStr "D"), ("issue_type", .vStr "Subtask")]).2.2
      (.vStr "P") (.vStr "S") (.vStr "D") rfl rfl rfl rfl rfl).2 issue0 (fun _ => rfl)

/-- Truth exactly when the handler returned an envelope rather than
propagating an exception. -/
def exceptOk : Except PyErr Envelope → Bool
  | .ok _ => true
  | .error _ => false

/-- Claim C10: page_size is only capped from above, so a requested
page_size of 0 reaches the total_pages division, whose ZeroDivisionError
is caught and converted to the generic error envelope (with the search
already issued with maxResults 0); and each of the three search handlers
returns an envelope (never propagates an exception) for all integer page
and page_size inputs — get_my_issues unconditionally. -/
theorem page_size_zero_and_totality :
    (∀ (client : JiraClient) (co : Option Val) (d : Data) (p : Int) (st : String)
       (l : List Issue) (t : Int),
       0 ≤ client.max_results →
       lookupVal d "page" = some (.vInt p) →
       lookupVal d "page_size" = some (.vInt 0) →
       lookupVal d "search_text" = some (.vStr st) → st ≠ "" →
       (∀ q s n, client.search_issues q s n = .ok ⟨l, t⟩) →
       _search_issues client ⟨co, some d⟩ =
         ([.searchCalled
             (search_jql (((lookupVal d "title_only").getD (.vBool false)).truthy) st)
             0 0],
          .ok (errEnv "An unexpected error occurred")))
    ∧ (∀ (client : JiraClient) (co : Option Val) (d : Data) (p ps : Int),
        pyInt ((lookupVal d "page").getD (.vInt 1)) = .ok p →
        pyInt ((lookupVal d "page_size").getD (.vInt 20)) = .ok ps →
        exceptOk (_search_issues client ⟨co, some d⟩).2 = true)
    ∧ (∀ (client : JiraClient) (co : Option Val) (d : Data) (p ps : Int),
        pyInt ((lookupVal d "page").getD (.vInt 1)) = .ok p →
        pyInt ((lookupVal d "page_size").getD (.vInt 20)) = .ok ps →
        exceptOk (_get_epic_with_subtasks client ⟨co, some d⟩).2 = true)
    ∧ (∀ (client : JiraClient) (message : Msg),
        exceptOk (_get_my_issues client message).2 = true) := by
  refine ⟨?_, ?_, ?_, ?_⟩
  · intro client co d p st l t hmax hp hps hst hstne hsearch
    have h0 : min client.max_results 0 = 0 := by omega
    rw [search_issues_eval client co d p 0 st l t hp hps hst hstne hsearch, h0]
    simp [pyFloorDiv, searchExcept]
  · intro client co d p ps hpok hpsok
    unfold _search_issues
    simp only [Msg.data, Option.getD_some, hpok, hpsok]
    repeat' split
    all_goals rfl
  · intro client co d p ps hpok hpsok
    unfold _get_epic_with_subtasks
    simp only [Msg.data, Option.getD_some, hpok, hpsok]
    repeat' split
    all_goals rfl
  · intro client message
    unfold _get_my_issues
    rcases hb : _get_my_issues_body client ((message.data).getD []) with ⟨effs, r⟩
    cases r <;> simp [hb, exceptOk]

/-- Payload for the C10 witness: page_size 0 with a present search text. -/
def dW10 : Data :=
  [("page", .vInt 1), ("page_size", .vInt 0), ("search_text", .vStr "x")]

/-- Witness for C10: with page_size 0 the search is issued with
maxResults 0 and the division by zero is converted to the generic error
envelope; all three handlers return envelopes on this input. -/
theorem page_size_zero_and_totality_witness :
    ((0 : Int) ≤ clC3.max_results) ∧
    _search_issues clC3 ⟨some (.vStr "search_issues"), some dW10⟩ =
      ([.searchCalled
          (search_jql (((lookupVal dW10 "title_only").getD (.vBool false)).truthy) "x")
          0 0],
       .ok (errEnv "An unexpected error occurred")) ∧
    exceptOk (_search_issues clC3 ⟨some (.vStr "search_issues"), some dW10⟩).2 = true ∧
    exceptOk (_get_epic_with_subtasks clC3 ⟨some (.vStr "x"), some dW10⟩).2 = true ∧
    exceptOk (_get_my_issues clC3 ⟨none, some dW10⟩).2 = true := by
  refine ⟨by decide, ?_, ?_, ?_, ?_⟩
  · exact page_size_zero_and_totality.1 clC3 (some (.vStr "search_issues")) dW10
      1 "x" [] 1 (by decide) rfl rfl rfl (by decide) (fun _ _ _ => rfl)
  · exact page_size_zero_and_totality.2.1 clC3 (some (.vStr "search_issues")) dW10
      1 0 rfl rfl
  · exact page_size_zero_and_totality.2.2.1 clC3 (some (.vStr "x")) dW10 1 0 rfl rfl
  · exact page_size_zero_and_totality.2.2.2 clC3 ⟨none, some dW10⟩

/-- Claim C8: a missing, empty-ish, or unrecognized command yields an
error envelope with no outbound call; and any exception a handler
propagates is caught by the dispatcher and converted into an error
envelope carrying the exception's message, so handle_mcp_message always
returns an envelope. -/
theorem dispatcher_unknown_and_catch :
    (∀ (client : JiraClient) (d : Option Data),
       handle_mcp_message client ⟨none, d⟩ = ([], errEnv "No command specified"))
    ∧ (∀ (client : JiraClient) (d : Option Data) (c : Val), c.truthy = false →
       handle_mcp_message client ⟨some c, d⟩ = ([], errEnv "No command specified"))
    ∧ (∀ (client : JiraClient) (d : Option Data) (s : String),
        s ∉ ["create_issue", "get_issue", "update_issue", "search_issues",
             "get_epic_with_subtasks", "get_my_issues", "get_transitions"] →
        s ≠ "" →
        handle_mcp_message client ⟨some (.vStr s), d⟩ =
          ([], errEnv ("Unknown command: " ++ s)))
    ∧ (∀ (client : JiraClient) (message : Msg) (effs : List Effect) (ex : PyErr),
        dispatch client message = (effs, .error ex) →
        handle_mcp_message client message = (effs, errEnv (pyErrStr ex))) := by
  refine ⟨?_, ?_, ?_, ?_⟩
  · intro client d
    rfl
  · intro client d c hc
    simp [handle_mcp_message, dispatch, hc]
  · intro client d s h hs
    simp only [List.mem_cons, List.mem_singleton, not_or] at h
    obtain ⟨h1, h2, h3, h4, h5, h6, h7, -⟩ := h
    simp [handle_mcp_message, dispatch, Val.truthy, pyStr, hs, h1, h2, h3, h4, h5, h6, h7]
  · intro client message effs ex hd
    simp [handle_mcp_message, hd]

/-- Witness for C8: a missing command and an unknown command give the
error envelopes with an empty effect trace, and a get_issue whose
external fetch raises is converted into an error envelope carrying the
exception's message. -/
theorem dispatcher_unknown_and_catch_witness :
    ("drop_tables" ∉ ["create_issue", "get_issue", "update_issue", "search_issues",
        "get_epic_with_subtasks", "get_my_issues", "get_transitions"]) ∧
    handle_mcp_message clC3 ⟨none, none⟩ = ([], errEnv "No command specified") ∧
    handle_mcp_message clC3 ⟨some (.vStr "drop_tables"), none⟩ =
      ([], errEnv ("Unknown command: " ++ "drop_tables")) ∧
    dispatch clC3 ⟨some (.vStr "get_issue"), some [("issue_key", .vStr "K")]⟩ =
      ([], .error (.other "n")) ∧
    handle_mcp_message clC3 ⟨some (.vStr "get_issue"), some [("issue_key", .vStr "K")]⟩ =
      ([], errEnv (pyErrStr (.other "n"))) := by
  refine ⟨by decide, ?_, ?_, rfl, ?_⟩
  · exact dispatcher_unknown_and_catch.1 clC3 none
  · exact dispatcher_unknown_and_catch.2.2.1 clC3 none "drop_tables" (by decide) (by decide)
  · exact dispatcher_unknown_and_catch.2.2.2 clC3
      ⟨some (.vStr "get_issue"), some [("issue_key", .vStr "K")]⟩ [] (.other "n") rfl

/-- Well-formedness of a response envelope: status is success or error,
exactly one of data and message is populated, and an error envelope
carries a message and no data. -/
def envelopeOk (e : Envelope) : Prop :=
  (e.status = "success" ∨ e.status = "error")
  ∧ (e.data.isSome = true ↔ e.message.isSome = false)
  ∧ (e.status = "error" → e.data = none ∧ e.message.isSome = true)

/-- Error envelopes are well formed. -/
theorem envelopeOk_errEnv (m : String) : envelopeOk (errEnv m) := by
  simp [envelopeOk, errEnv]

/-- Data-carrying success envelopes are well formed. -/
theorem envelopeOk_successDataEnv (dd : J) : envelopeOk (successDataEnv dd) := by
  simp [envelopeOk, successDataEnv]

/-- Message-carrying success envelopes are well formed. -/
theorem envelopeOk_okMsgEnv (m : String) : envelopeOk (okMsgEnv m) := by
  simp [envelopeOk, okMsgEnv]

/-- Envelopes produced by the search exception clauses are well formed. -/
theorem envelopeOk_searchExcept (e : PyErr) : envelopeOk (searchExcept e) := by
  cases e <;> simp [searchExcept, envelopeOk, errEnv]

/-- Every envelope _create_issue returns is well formed. -/
theorem env_ok_create_issue (client : JiraClient) (message : Msg)
    (effs : List Effect) (env : Envelope)
    (h : _create_issue client message = (effs, .ok env)) : envelopeOk env := by
  unfold _create_issue at h
  try dsimp only at h
  repeat' split at h
  all_goals first
    | (simp only [Prod.mk.injEq, Except.ok.injEq] at h
       obtain ⟨-, rfl⟩ := h
       first
         | exact envelopeOk_errEnv _
         | exact envelopeOk_successDataEnv _
         | exact envelopeOk_okMsgEnv _
         | exact envelopeOk_searchExcept _)
    | simp_all

/-- Every envelope _get_issue returns is well formed. -/
theorem env_ok_get_issue (client : JiraClient) (message : Msg)
    (effs : List Effect) (env : Envelope)
    (h : _get_issue client message = (effs, .ok env)) : envelopeOk env := by
  unfold _get_issue at h
  try dsimp only at h
  repeat' split at h
  all_goals first
    | (simp only [Prod.mk.injEq, Except.ok.injEq] at h
       obtain ⟨-, rfl⟩ := h
       first
         | exact envelopeOk_errEnv _
         | exact envelopeOk_successDataEnv _
         | exact envelopeOk_okMsgEnv _
         | exact envelopeOk_searchExcept _)
    | simp_all

/-- Every envelope _update_issue returns is well formed. -/
theorem env_ok_update_issue (client : JiraClient) (message : Msg)
    (effs : List Effect) (env : Envelope)
    (h : _update_issue client message = (effs, .ok env)) : envelopeOk env := by
  unfold _update_issue finishUpdate at h
  try dsimp only at h
  repeat' split at h
  all_goals first
    | (simp only [Prod.mk.injEq, Except.ok.injEq] at h
       obtain ⟨-, rfl⟩ := h
       first
         | exact envelopeOk_errEnv _
         | exact envelopeOk_successDataEnv _
         | exact envelopeOk_okMsgEnv _
         | exact envelopeOk_searchExcept _)
    | simp_all

/-- Every envelope _search_issues returns is well formed. -/
theorem env_ok_search_issues (client : JiraClient) (message : Msg)
    (effs : List Effect) (env : Envelope)
    (h : _search_issues client message = (effs, .ok env)) : envelopeOk env := by
  unfold _search_issues at h
  try dsimp only at h
  repeat' split at h
  all_goals first
    | (simp only [Prod.mk.injEq, Except.ok.injEq] at h
       obtain ⟨-, rfl⟩ := h
       first
         | exact envelopeOk_errEnv _
         | exact envelopeOk_successDataEnv _
         | exact envelopeOk_okMsgEnv _
         | exact envelopeOk_searchExcept _)
    | simp_all

/-- Every envelope _get_epic_with_subtasks returns is well formed. -/
theorem env_ok_epic (client : JiraClient) (message : Msg)
    (effs : List Effect) (env : Envelope)
    (h : _get_epic_with_subtasks client message = (effs, .ok env)) : envelopeOk env := by
  unfold _get_epic_with_subtasks at h
  try dsimp only at h
  repeat' split at h
  all_goals first
    | (simp only [Prod.mk.injEq, Except.ok.injEq] at h
       obtain ⟨-, rfl⟩ := h
       first
         | exact envelopeOk_errEnv _
         | exact envelopeOk_successDataEnv _
         | exact envelopeOk_okMsgEnv _
         | exact envelopeOk_searchExcept _)
    | simp_all

/-- Every envelope the get_my_issues body returns is well formed. -/
theorem env_ok_my_issues_body (client : JiraClient) (d : Data)
    (effs : List Effect) (env : Envelope)
    (h : _get_my_issues_body client d = (effs, .ok env)) : envelopeOk env := by
  unfold _get_my_issues_body at h
  try dsimp only at h
  repeat' split at h
  all_goals first
    | (simp only [Prod.mk.injEq, Except.ok.injEq] at h
       obtain ⟨-, rfl⟩ := h
       first
         | exact envelopeOk_errEnv _
         | exact envelopeOk_successDataEnv _
         | exact envelopeOk_okMsgEnv _
         | exact envelopeOk_searchExcept _)
    | simp_all

/-- Every envelope _get_my_issues returns is well formed. -/
theorem env_ok_my_issues (client : JiraClient) (message : Msg)
    (effs : List Effect) (env : Envelope)
    (h : _get_my_issues client message = (effs, .ok env)) : envelopeOk env := by
  unfold _get_my_issues at h
  rcases hb : _get_my_issues_body client ((message.data).getD []) with ⟨effs2, r⟩
  rw [hb] at h
  cases r with
  | ok env2 =>
    simp only [Prod.mk.injEq, Except.ok.injEq] at h
    obtain ⟨-, rfl⟩ := h
    exact env_ok_my_issues_body client _ effs2 env2 hb
  | error e =>
    simp only [Prod.mk.injEq, Except.ok.injEq] at h
    obtain ⟨-, rfl⟩ := h
    exact envelopeOk_searchExcept e

/-- Every envelope _get_transitions returns is well formed. -/
theorem env_ok_transitions (client : JiraClient) (message : Msg)
    (effs : List Effect) (env : Envelope)
    (h : _get_transitions client message = (effs, .ok env)) : envelopeOk env := by
  unfold _get_transitions at h
  try dsimp only at h
  repeat' split at h
  all_goals first
    | (simp only [Prod.mk.injEq, Except.ok.injEq] at h
       obtain ⟨-, rfl⟩ := h
       first
         | exact envelopeOk_errEnv _
         | exact envelopeOk_successDataEnv _
         | exact envelopeOk_okMsgEnv _
         | exact envelopeOk_searchExcept _)
    | simp_all

/-- Every envelope the dispatch routing returns is well formed. -/
theorem env_ok_dispatch (client : JiraClient) (message : Msg)
    (effs : List Effect) (env : Envelope)
    (h : dispatch client message = (effs, .ok env)) : envelopeOk env := by
  unfold dispatch at h
  repeat' split at h
  all_goals first
    | (simp only [Prod.mk.injEq, Except.ok.injEq] at h
       obtain ⟨-, rfl⟩ := h
       exact envelopeOk_errEnv _)
    | exact env_ok_create_issue _ _ _ _ h
    | exact env_ok_get_issue _ _ _ _ h
    | exact env_ok_update_issue _ _ _ _ h
    | exact env_ok_search_issues _ _ _ _ h
    | exact env_ok_epic _ _ _ _ h
    | exact env_ok_my_issues _ _ _ _ h
    | exact env_ok_transitions _ _ _ _ h
    | simp_all

/-- Claim C9: for every message and every external client behavior, the
envelope returned by the dispatcher has status success or error, exactly
one of data and message populated, and every error envelope carries a
message and no data. -/
theorem envelope_invariant (client : JiraClient) (message : Msg) :
    envelopeOk (handle_mcp_message client message).2 := by
  unfold handle_mcp_message
  rcases hd : dispatch client message with ⟨effs, r⟩
  cases r with
  | ok env => exact env_ok_dispatch client message effs env hd
  | error e => exact envelopeOk_errEnv _

end MCPJira
